import Mathlib

/-!
Verification of the Zabbix CSV host importer (src/app.py).

The remote device-management API is modelled as a family of response
functions over an abstract state type, so that theorems quantify over
every possible remote behaviour (success, failure, arbitrary payloads).
Every repository function that talks to the remote API additionally
returns the ordered list of remote calls it issued, which lets us state
claims of the form "no create call is made".

Python exceptions raised by an API call are modelled as the Except.error
case of the response; the try/except blocks of app.py then become the
corresponding match branches. Machine strings stay strings; the one
numeric conversion, int(...) at line 173 of app.py, is modelled by
String.toInt? (failure raises, as in Python).
-/

namespace ZabbixDiscover

/-- One remote call, as issued by the code. The login constructor stands
for the authentication exchange performed by zabbix.login at line 31 of
app.py; the version print at line 32 is treated as logging. -/
inductive ApiCall where
  | login
  | hostGet (name : String)
  | hostCreate (host : String) (displayName : String) (interfaceIps : List String)
      (groupids : List (Option String)) (templateids : List String) (status : Nat)
  | hostgroupGetFiltered (name : String)
  | hostgroupCreate (name : String)
  | hostgroupGetAll
deriving DecidableEq, Repr

/-- A host group record as returned by hostgroup.get; only the groupid
field is read by the code (lines 212, 220 of app.py). -/
structure HostGroup where
  groupid : String
deriving DecidableEq, Repr

/-- SNMP interface details dict (lines 162-178 of app.py). The dict
starts holding version and bulk; version-specific keys are optional. -/
structure SnmpDetails where
  version : Option String
  bulk : Nat
  community : Option String
  securityname : Option String
  securitylevel : Option Int
  authprotocol : Option String
  authpassphrase : Option String
  privprotocol : Option String
  privpassphrase : Option String
  contextname : Option String
deriving DecidableEq, Repr

/-- The SNMP interface dict (lines 155-166 of app.py). -/
structure Interface where
  type : Nat
  main : Nat
  useip : Nat
  ip : String
  dns : String
  port : String
  details : SnmpDetails
deriving DecidableEq, Repr

/-- The host.create parameter dict (lines 181-188 of app.py). groups
holds groupids as returned by get_default_hostgroup, which can be the
Python value None. -/
structure CreateParams where
  host : String
  name : String
  interfaces : List Interface
  groups : List (Option String)
  templates : List String
  status : Nat
deriving DecidableEq, Repr

/-- Per-row outcome status ('success' or 'error' strings in app.py). -/
inductive Status where
  | success
  | error
deriving DecidableEq, Repr

/-- Per-row outcome dict returned by create_host_in_zabbix. -/
structure Outcome where
  nome : String
  ip : String
  status : Status
  mensagem : String
deriving DecidableEq, Repr

/-- Form fields read through form_data.get(...) in app.py; a value of
none models an absent field. -/
structure FormData where
  snmp_community : Option String
  snmp_securityname : Option String
  snmp_securitylevel : Option String
  snmp_authprotocol : Option String
  snmp_authpassphrase : Option String
  snmp_privprotocol : Option String
  snmp_privpassphrase : Option String
  snmp_contextname : Option String
deriving DecidableEq, Repr

/-- The remote API: one response function per JSON-RPC method used by
app.py, each threading an abstract remote state. Except.error models a
raised exception. hostGet answers host.get with the matching host list
(only truthiness is read); hostCreate answers host.create with the
hostids list; hostgroupCreate answers hostgroup.create with the
groupids list. -/
structure RemoteApi (σ : Type) where
  hostGet : σ → String → Except String (List String) × σ
  hostCreate : σ → CreateParams → Except String (List String) × σ
  hostgroupGetFiltered : σ → String → Except String (List HostGroup) × σ
  hostgroupCreate : σ → String → Except String (List String) × σ
  hostgroupGetAll : σ → Except String (List HostGroup) × σ

/-- The process-global ZabbixAPI handle: constructed unauthenticated,
the login call flips the flag. -/
structure ZSession where
  authenticated : Bool
deriving DecidableEq, Repr

/-- get_zabbix_connection (lines 25-36 of app.py). The first argument
models the outcome of zabbix.login with the fixed credentials; the
second is the process-global variable zabbix. Returns the value handed
to the caller, the new global, and the remote calls issued. Note the
global is assigned the fresh handle at line 30, before login runs. -/
def get_zabbix_connection (login : Except String Unit) (g : Option ZSession) :
    Option ZSession × Option ZSession × List ApiCall :=
  match g with
  | some z => (some z, some z, [])
  | none =>
    match login with
    | Except.ok _ => (some ⟨true⟩, some ⟨true⟩, [ApiCall.login])
    | Except.error _ => (none, some ⟨false⟩, [ApiCall.login])

/-- Decimal digit run accumulator for pyInt. -/
def decDigitsAux : List Char → Nat → Option Nat
  | [], acc => some acc
  | c :: cs, acc => if c.isDigit then decDigitsAux cs (acc * 10 + (c.toNat - 48)) else none

/-- Python int() over the characters: an optional sign followed by a
nonempty run of decimal digits; anything else raises ValueError. -/
def pyIntChars : List Char → Option Int
  | [] => none
  | '-' :: cs => if cs.isEmpty then none else (decDigitsAux cs 0).map (fun n => -(n : Int))
  | '+' :: cs => if cs.isEmpty then none else (decDigitsAux cs 0).map (fun n => (n : Int))
  | cs => (decDigitsAux cs 0).map (fun n => (n : Int))

/-- Python int(s) on a string, as used at line 173 of app.py; none
models the raised ValueError. -/
def pyInt (s : String) : Option Int := pyIntChars s.data

/-- int(form_data.get('snmp_securitylevel', 0)) at line 173 of app.py:
the default 0 is already an int; a present field goes through int()
and Except.error models the raised ValueError. -/
def levelResult (fd : FormData) : Except String Int :=
  match fd.snmp_securitylevel with
  | none => Except.ok 0
  | some sv =>
    match pyInt sv with
    | none => Except.error ("invalid literal for int() with base 10: " ++ sv)
    | some n => Except.ok n

/-- Builds the SNMP interface dict of lines 154-178 of app.py: version
and bulk always; community for version '2'; the seven version-3 keys
for version '3'; nothing else for any other value. Except.error models
the ValueError from int(form_data.get('snmp_securitylevel', 0)). -/
def buildInterface (ip : String) (snmp_version : Option String) (fd : FormData) :
    Except String Interface :=
  let base : SnmpDetails :=
    { version := snmp_version, bulk := 0, community := none,
      securityname := none, securitylevel := none, authprotocol := none,
      authpassphrase := none, privprotocol := none, privpassphrase := none,
      contextname := none }
  if snmp_version = some "2" then
    Except.ok
      { type := 2, main := 1, useip := 1, ip := ip, dns := "", port := "161",
        details := { base with community := some (fd.snmp_community.getD "public") } }
  else if snmp_version = some "3" then
    match levelResult fd with
    | Except.error e => Except.error e
    | Except.ok lvl =>
      Except.ok
        { type := 2, main := 1, useip := 1, ip := ip, dns := "", port := "161",
          details :=
            { base with
              securityname := some (fd.snmp_securityname.getD ""),
              securitylevel := some lvl,
              authprotocol := some (fd.snmp_authprotocol.getD "0"),
              authpassphrase := some (fd.snmp_authpassphrase.getD ""),
              privprotocol := some (fd.snmp_privprotocol.getD "0"),
              privpassphrase := some (fd.snmp_privpassphrase.getD ""),
              contextname := some (fd.snmp_contextname.getD "") } }
  else
    Except.ok
      { type := 2, main := 1, useip := 1, ip := ip, dns := "", port := "161",
        details := base }

/-- The bare except branch of get_default_hostgroup (lines 217-220 of
app.py): query all groups and take the first, or hand back None when
the list is empty; an exception raised here propagates. -/
def fallbackGroup {σ : Type} (api : RemoteApi σ) (s : σ) (t : List ApiCall) :
    Except String (Option String) × σ × List ApiCall :=
  match api.hostgroupGetAll s with
  | (Except.error e, s2) => (Except.error e, s2, t ++ [ApiCall.hostgroupGetAll])
  | (Except.ok (g :: _), s2) => (Except.ok (some g.groupid), s2, t ++ [ApiCall.hostgroupGetAll])
  | (Except.ok [], s2) => (Except.ok none, s2, t ++ [ApiCall.hostgroupGetAll])

/-- get_default_hostgroup (lines 207-220 of app.py). Returns the
groupid handed back (the Python value None when no group exists at
all), or Except.error when the bare except branch itself raises; plus
the new remote state and the calls issued. An empty groupids list from
hostgroup.create makes result['groupids'][0] raise IndexError, which
the bare except also catches. -/
def get_default_hostgroup {σ : Type} (api : RemoteApi σ) (s : σ) :
    Except String (Option String) × σ × List ApiCall :=
  match api.hostgroupGetFiltered s "Imported Hosts" with
  | (Except.ok (g :: _), s1) =>
    (Except.ok (some g.groupid), s1, [ApiCall.hostgroupGetFiltered "Imported Hosts"])
  | (Except.ok [], s1) =>
    match api.hostgroupCreate s1 "Imported Hosts" with
    | (Except.ok (gid :: _), s2) =>
      (Except.ok (some gid), s2,
        [ApiCall.hostgroupGetFiltered "Imported Hosts", ApiCall.hostgroupCreate "Imported Hosts"])
    | (Except.ok [], s2) =>
      fallbackGroup api s2
        [ApiCall.hostgroupGetFiltered "Imported Hosts", ApiCall.hostgroupCreate "Imported Hosts"]
    | (Except.error _, s2) =>
      fallbackGroup api s2
        [ApiCall.hostgroupGetFiltered "Imported Hosts", ApiCall.hostgroupCreate "Imported Hosts"]
  | (Except.error _, s1) =>
    fallbackGroup api s1 [ApiCall.hostgroupGetFiltered "Imported Hosts"]

/-- Shrinks a CreateParams dict to the payload recorded in the trace. -/
def toCreateCall (p : CreateParams) : ApiCall :=
  ApiCall.hostCreate p.host p.name (p.interfaces.map Interface.ip) p.groups p.templates p.status

/-- The host.create parameter dict of lines 181-188 of app.py. -/
def mkCreateParams (hostname : String) (iface : Interface) (gid : Option String)
    (template_ids : List String) : CreateParams :=
  { host := hostname, name := hostname, interfaces := [iface],
    groups := [gid], templates := template_ids, status := 0 }

/-- create_host_in_zabbix (lines 141-205 of app.py): look the name up,
report a duplicate, otherwise build the interface, resolve the group,
issue host.create, and fold every raised exception into an error
outcome. An empty hostids list makes result["hostids"][0] raise
IndexError, also folded into an error outcome. -/
def create_host_in_zabbix {σ : Type} (api : RemoteApi σ) (s : σ)
    (hostname ip : String) (template_ids : List String)
    (snmp_version : Option String) (fd : FormData) :
    Outcome × σ × List ApiCall :=
  match api.hostGet s hostname with
  | (Except.error e, s1) =>
    ({ nome := hostname, ip := ip, status := Status.error, mensagem := e },
      s1, [ApiCall.hostGet hostname])
  | (Except.ok (_ :: _), s1) =>
    ({ nome := hostname, ip := ip, status := Status.error,
       mensagem := "Host " ++ hostname ++ " já existe" },
      s1, [ApiCall.hostGet hostname])
  | (Except.ok [], s1) =>
    match buildInterface ip snmp_version fd with
    | Except.error e =>
      ({ nome := hostname, ip := ip, status := Status.error, mensagem := e },
        s1, [ApiCall.hostGet hostname])
    | Except.ok iface =>
      match get_default_hostgroup api s1 with
      | (Except.error e, s2, gt) =>
        ({ nome := hostname, ip := ip, status := Status.error, mensagem := e },
          s2, ApiCall.hostGet hostname :: gt)
      | (Except.ok gid, s2, gt) =>
        match api.hostCreate s2 (mkCreateParams hostname iface gid template_ids) with
        | (Except.error e, s3) =>
          ({ nome := hostname, ip := ip, status := Status.error, mensagem := e },
            s3, ApiCall.hostGet hostname :: gt ++
              [toCreateCall (mkCreateParams hostname iface gid template_ids)])
        | (Except.ok [], s3) =>
          ({ nome := hostname, ip := ip, status := Status.error,
             mensagem := "list index out of range" },
            s3, ApiCall.hostGet hostname :: gt ++
              [toCreateCall (mkCreateParams hostname iface gid template_ids)])
        | (Except.ok (hid :: _), s3) =>
          ({ nome := hostname, ip := ip, status := Status.success,
             mensagem := "Host criado com sucesso (ID: " ++ hid ++ ")" },
            s3, ApiCall.hostGet hostname :: gt ++
              [toCreateCall (mkCreateParams hostname iface gid template_ids)])

/-- One parsed CSV row; row['nome'] and row['ip'] as read at lines
117-118 of app.py. -/
structure Row where
  nome : String
  ip : String
deriving DecidableEq, Repr

/-- The pandas DataFrame: its column labels and its rows in file order. -/
structure Table where
  columns : List String
  rows : List Row
deriving DecidableEq, Repr

/-- The uploaded file: its client-supplied name and the result of
pd.read_csv on its contents (Except.error models a parse exception). -/
structure CsvFile where
  filename : String
  parsed : Except String Table
deriving Repr

/-- One import submission: the csv_file entry of request.files (none
when absent), the templates[] list, snmp_version and the other form
fields. -/
structure ImportRequest where
  csv_file : Option CsvFile
  templates : List String
  snmp_version : Option String
  form : FormData
deriving Repr

/-- What the /import endpoint renders: a flash-and-redirect rejection,
or the results page with per-row outcomes and the two counters. -/
inductive ImportResult where
  | rejected (msg : String)
  | completed (results : List Outcome) (success_count : Nat) (error_count : Nat)
deriving DecidableEq, Repr

/-- required_columns at line 90 of app.py. -/
def required_columns : List String := ["nome", "ip"]

/-- Python str.endswith, evaluated character-wise (line 77 of app.py). -/
def pyEndsWith (s pat : String) : Bool := pat.data.isSuffixOf s.data

/-- The per-row loop of lines 113-123 of app.py: sequentially calls
create_host_in_zabbix on each row, threading the remote state and
appending each outcome in row order. -/
def processRows {σ : Type} (api : RemoteApi σ) (s : σ) (rows : List Row)
    (template_ids : List String) (snmp_version : Option String) (fd : FormData) :
    List Outcome × σ × List ApiCall :=
  match rows with
  | [] => ([], s, [])
  | r :: rs =>
    let one := create_host_in_zabbix api s r.nome r.ip template_ids snmp_version fd
    let rest := processRows api one.2.1 rs template_ids snmp_version fd
    (one.1 :: rest.1, rest.2.1, one.2.2 ++ rest.2.2)

/-- import_hosts (lines 63-139 of app.py), with the file-system steps
(save, remove) elided as local I/O. Checks run in code order: file
present, filename nonempty, .csv suffix, parse, required columns,
at least one template, connection; then the row loop and the two
counters. Returns the rendered result, the new global handle, the new
remote state and every remote call issued. -/
def import_hosts {σ : Type} (login : Except String Unit) (g : Option ZSession)
    (api : RemoteApi σ) (s : σ) (req : ImportRequest) :
    ImportResult × Option ZSession × σ × List ApiCall :=
  match req.csv_file with
  | none => (ImportResult.rejected "Nenhum arquivo enviado", g, s, [])
  | some f =>
    if f.filename = "" then
      (ImportResult.rejected "Nenhum arquivo selecionado", g, s, [])
    else if pyEndsWith f.filename ".csv" = false then
      (ImportResult.rejected "Por favor, envie um arquivo CSV", g, s, [])
    else
      match f.parsed with
      | Except.error e =>
        (ImportResult.rejected ("Erro ao processar importação: " ++ e), g, s, [])
      | Except.ok df =>
        if required_columns.all (fun c => df.columns.contains c) = false then
          (ImportResult.rejected "O CSV deve conter as colunas: nome, ip", g, s, [])
        else if req.templates = [] then
          (ImportResult.rejected "Selecione pelo menos um template", g, s, [])
        else
          match get_zabbix_connection login g with
          | (none, g2, ct) =>
            (ImportResult.rejected "Erro ao conectar ao Zabbix", g2, s, ct)
          | (some _, g2, ct) =>
            let r := processRows api s df.rows req.templates req.snmp_version req.form
            let sc := (r.1.filter (fun o => o.status == Status.success)).length
            (ImportResult.completed r.1 sc (r.1.length - sc), g2, r.2.1, ct ++ r.2.2)

/-- Every branch of create_host_in_zabbix copies the hostname and ip
arguments into the outcome unchanged. -/
theorem create_host_nome_ip {σ : Type} (api : RemoteApi σ) (s : σ)
    (hostname ip : String) (tids : List String) (ver : Option String) (fd : FormData) :
    (create_host_in_zabbix api s hostname ip tids ver fd).1.nome = hostname ∧
    (create_host_in_zabbix api s hostname ip tids ver fd).1.ip = ip := by
  constructor <;>
    (unfold create_host_in_zabbix
     repeat' split
     all_goals simp)

/-- The row loop emits outcomes whose (nome, ip) pairs are exactly the
(nome, ip) pairs of the input rows, in order. -/
theorem processRows_names {σ : Type} (api : RemoteApi σ)
    (tids : List String) (ver : Option String) (fd : FormData) :
    ∀ (rows : List Row) (s : σ),
      (processRows api s rows tids ver fd).1.map (fun o => (o.nome, o.ip)) =
        rows.map (fun r => (r.nome, r.ip)) := by
  intro rows
  induction rows with
  | nil => intro s; simp [processRows]
  | cons r rs ih =>
    intro s
    obtain ⟨h1, h2⟩ := create_host_nome_ip api s r.nome r.ip tids ver fd
    simp [processRows, ih, h1, h2]

/-- The row loop emits exactly one outcome per input row. -/
theorem processRows_length {σ : Type} (api : RemoteApi σ)
    (tids : List String) (ver : Option String) (fd : FormData)
    (rows : List Row) (s : σ) :
    (processRows api s rows tids ver fd).1.length = rows.length := by
  have h := congrArg List.length (processRows_names api tids ver fd rows s)
  simpa using h

/-- Claim C1: for every valid input table of N rows, the import loop
produces exactly N outcome records, one per input row, collected in the
same order as the rows appear in the file. -/
theorem import_outcomes_match_rows {σ : Type} (login : Except String Unit)
    (g : Option ZSession) (api : RemoteApi σ) (s : σ) (req : ImportRequest)
    (f : CsvFile) (df : Table)
    (hf : req.csv_file = some f)
    (hn : f.filename ≠ "")
    (hcsv : pyEndsWith f.filename ".csv" = true)
    (hp : f.parsed = Except.ok df)
    (hcols : required_columns.all (fun c => df.columns.contains c) = true)
    (ht : req.templates ≠ [])
    (hc : (get_zabbix_connection login g).1.isSome = true) :
    ∃ results sc ec g2 s2 tr,
      import_hosts login g api s req = (ImportResult.completed results sc ec, g2, s2, tr) ∧
      results.length = df.rows.length ∧
      results.map (fun o => (o.nome, o.ip)) = df.rows.map (fun r => (r.nome, r.ip)) := by
  rcases hgc : get_zabbix_connection login g with ⟨conn, g2, ct⟩
  rw [hgc] at hc
  rcases conn with _ | z
  · simp at hc
  · have heq : import_hosts login g api s req =
        (ImportResult.completed
          (processRows api s df.rows req.templates req.snmp_version req.form).1
          ((processRows api s df.rows req.templates req.snmp_version req.form).1.filter
            (fun o => o.status == Status.success)).length
          ((processRows api s df.rows req.templates req.snmp_version req.form).1.length -
            ((processRows api s df.rows req.templates req.snmp_version req.form).1.filter
              (fun o => o.status == Status.success)).length),
          g2,
          (processRows api s df.rows req.templates req.snmp_version req.form).2.1,
          ct ++ (processRows api s df.rows req.templates req.snmp_version req.form).2.2) := by
      unfold import_hosts
      simp [hf, hp, hgc, hn, hcsv, hcols, ht]
      simpa using hcols
    exact ⟨_, _, _, _, _, _, heq,
      processRows_length api req.templates req.snmp_version req.form df.rows s,
      processRows_names api req.templates req.snmp_version req.form df.rows s⟩

/-- A remote environment where no host exists, every creation succeeds,
and the Imported Hosts group is present; used to instantiate theorems
at concrete inputs. -/
def apiHappy : RemoteApi Unit :=
  { hostGet := fun s _ => (Except.ok [], s),
    hostCreate := fun s _ => (Except.ok ["10105"], s),
    hostgroupGetFiltered := fun s _ => (Except.ok [⟨"7"⟩], s),
    hostgroupCreate := fun s _ => (Except.ok ["8"], s),
    hostgroupGetAll := fun s => (Except.ok [⟨"9"⟩], s) }

/-- A form with every optional SNMP field absent. -/
def emptyForm : FormData :=
  { snmp_community := none, snmp_securityname := none, snmp_securitylevel := none,
    snmp_authprotocol := none, snmp_authpassphrase := none, snmp_privprotocol := none,
    snmp_privpassphrase := none, snmp_contextname := none }

/-- A two-row upload with the required columns and one template. -/
def reqTwoRows : ImportRequest :=
  { csv_file := some
      { filename := "hosts.csv",
        parsed := Except.ok
          { columns := ["nome", "ip"],
            rows := [{ nome := "h1", ip := "10.0.0.1" }, { nome := "h2", ip := "10.0.0.2" }] } },
    templates := ["101"],
    snmp_version := some "2",
    form := emptyForm }

theorem import_outcomes_match_rows_witness :
    ∃ results sc ec g2 s2 tr,
      import_hosts (Except.ok ()) none apiHappy () reqTwoRows =
        (ImportResult.completed results sc ec, g2, s2, tr) ∧
      results.length = 2 ∧
      results.map (fun o => (o.nome, o.ip)) = [("h1", "10.0.0.1"), ("h2", "10.0.0.2")] :=
  import_outcomes_match_rows (Except.ok ()) none apiHappy () reqTwoRows _ _
    rfl (by decide) (by decide) rfl (by decide) (by decide) rfl

/-- Claim C2: for every row whose name matches an existing remote
device, create_host_in_zabbix returns an Error outcome for that row
and never issues a create-host call; the only remote call for the row
is the lookup itself. -/
theorem duplicate_row_error_no_create {σ : Type} (api : RemoteApi σ) (s s1 : σ)
    (hostname ip : String) (tids : List String) (ver : Option String) (fd : FormData)
    (h : String) (hs : List String)
    (hget : api.hostGet s hostname = (Except.ok (h :: hs), s1)) :
    create_host_in_zabbix api s hostname ip tids ver fd =
      ({ nome := hostname, ip := ip, status := Status.error,
         mensagem := "Host " ++ hostname ++ " já existe" },
        s1, [ApiCall.hostGet hostname]) := by
  unfold create_host_in_zabbix
  rw [hget]

/-- A remote environment in which the host named host-a already exists. -/
def apiDup : RemoteApi Unit :=
  { hostGet := fun s _ => (Except.ok ["host-a"], s),
    hostCreate := fun s _ => (Except.ok ["10106"], s),
    hostgroupGetFiltered := fun s _ => (Except.ok [⟨"7"⟩], s),
    hostgroupCreate := fun s _ => (Except.ok ["8"], s),
    hostgroupGetAll := fun s => (Except.ok [⟨"9"⟩], s) }

theorem duplicate_row_error_no_create_witness :
    create_host_in_zabbix apiDup () "host-a" "10.0.0.1" ["101"] (some "2") emptyForm =
      ({ nome := "host-a", ip := "10.0.0.1", status := Status.error,
         mensagem := "Host " ++ "host-a" ++ " já existe" },
        (), [ApiCall.hostGet "host-a"]) :=
  duplicate_row_error_no_create apiDup () () "host-a" "10.0.0.1" ["101"] (some "2")
    emptyForm "host-a" [] rfl

/-- Claim C9: group resolution is idempotent: when the group named
Imported Hosts already exists, resolving it again returns the same
existing group identifier and issues no hostgroup.create call. -/
theorem group_resolution_idempotent {σ : Type} (api : RemoteApi σ) (s s1 : σ)
    (g0 : HostGroup) (gs : List HostGroup)
    (h : api.hostgroupGetFiltered s "Imported Hosts" = (Except.ok (g0 :: gs), s1)) :
    get_default_hostgroup api s =
      (Except.ok (some g0.groupid), s1, [ApiCall.hostgroupGetFiltered "Imported Hosts"]) ∧
    ∀ n, ApiCall.hostgroupCreate n ∉ (get_default_hostgroup api s).2.2 := by
  have he : get_default_hostgroup api s =
      (Except.ok (some g0.groupid), s1, [ApiCall.hostgroupGetFiltered "Imported Hosts"]) := by
    unfold get_default_hostgroup
    rw [h]
  refine ⟨he, ?_⟩
  intro n
  rw [he]
  simp

theorem group_resolution_idempotent_witness :
    get_default_hostgroup apiHappy () =
      (Except.ok (some "7"), (), [ApiCall.hostgroupGetFiltered "Imported Hosts"]) ∧
    ∀ n, ApiCall.hostgroupCreate n ∉ (get_default_hostgroup apiHappy ()).2.2 :=
  group_resolution_idempotent apiHappy () () ⟨"7"⟩ [] rfl

/-- Claim C4: get_default_hostgroup looks up the group named Imported
Hosts and returns its identifier when found; when absent it creates it
and returns the new identifier; when creation fails for any reason
(a raised exception, or an empty groupids list making the indexing
raise) it queries all existing groups and returns the identifier of
the first one; and when no groups exist at all it hands back the
Python value None, the NoGroupAvailable failure signal, so every
non-failing path yields a resolved group identifier or that signal. -/
theorem get_default_hostgroup_policy {σ : Type} (api : RemoteApi σ) (s : σ) :
    (∀ g0 gs s1, api.hostgroupGetFiltered s "Imported Hosts" = (Except.ok (g0 :: gs), s1) →
      (get_default_hostgroup api s).1 = Except.ok (some g0.groupid)) ∧
    (∀ s1 gid gids s2,
      api.hostgroupGetFiltered s "Imported Hosts" = (Except.ok [], s1) →
      api.hostgroupCreate s1 "Imported Hosts" = (Except.ok (gid :: gids), s2) →
      (get_default_hostgroup api s).1 = Except.ok (some gid)) ∧
    (∀ s1 s2 g0 gs s3,
      api.hostgroupGetFiltered s "Imported Hosts" = (Except.ok [], s1) →
      ((∃ e, api.hostgroupCreate s1 "Imported Hosts" = (Except.error e, s2)) ∨
        api.hostgroupCreate s1 "Imported Hosts" = (Except.ok [], s2)) →
      api.hostgroupGetAll s2 = (Except.ok (g0 :: gs), s3) →
      (get_default_hostgroup api s).1 = Except.ok (some g0.groupid)) ∧
    (∀ s1 s2 s3,
      api.hostgroupGetFiltered s "Imported Hosts" = (Except.ok [], s1) →
      ((∃ e, api.hostgroupCreate s1 "Imported Hosts" = (Except.error e, s2)) ∨
        api.hostgroupCreate s1 "Imported Hosts" = (Except.ok [], s2)) →
      api.hostgroupGetAll s2 = (Except.ok [], s3) →
      (get_default_hostgroup api s).1 = Except.ok none) := by
  refine ⟨?_, ?_, ?_, ?_⟩
  · intro g0 gs s1 h
    unfold get_default_hostgroup
    rw [h]
  · intro s1 gid gids s2 h1 h2
    unfold get_default_hostgroup
    rw [h1]; dsimp only; rw [h2]
  · intro s1 s2 g0 gs s3 h1 h2 h3
    unfold get_default_hostgroup fallbackGroup
    rcases h2 with ⟨e, h2⟩ | h2 <;>
      (rw [h1]; dsimp only; rw [h2]; dsimp only; rw [h3])
  · intro s1 s2 s3 h1 h2 h3
    unfold get_default_hostgroup fallbackGroup
    rcases h2 with ⟨e, h2⟩ | h2 <;>
      (rw [h1]; dsimp only; rw [h2]; dsimp only; rw [h3])

/-- A remote environment with no Imported Hosts group, where group
creation raises and only one unrelated group exists. -/
def apiNoCreate : RemoteApi Unit :=
  { hostGet := fun s _ => (Except.ok [], s),
    hostCreate := fun s _ => (Except.ok ["10107"], s),
    hostgroupGetFiltered := fun s _ => (Except.ok [], s),
    hostgroupCreate := fun s _ => (Except.error "No permissions to call hostgroup.create", s),
    hostgroupGetAll := fun s => (Except.ok [⟨"4"⟩], s) }

theorem get_default_hostgroup_policy_witness :
    (get_default_hostgroup apiHappy ()).1 = Except.ok (some "7") ∧
    (get_default_hostgroup apiNoCreate ()).1 = Except.ok (some "4") :=
  ⟨(get_default_hostgroup_policy apiHappy ()).1 ⟨"7"⟩ [] () rfl,
   (get_default_hostgroup_policy apiNoCreate ()).2.2.1 () () ⟨"4"⟩ [] ()
     rfl (Or.inl ⟨"No permissions to call hostgroup.create", rfl⟩) rfl⟩

/-- Claim C5 counterexample: with failing credentials the first call
returns null, but line 30 of app.py has already stored the fresh
unauthenticated handle in the global, so a second call returns that
non-null handle — refuting that on authentication failure every call
returns null. -/
theorem connection_stale_handle_counterexample :
    (get_zabbix_connection (Except.error "auth failed") none).1 = none ∧
    (get_zabbix_connection (Except.error "auth failed")
        (get_zabbix_connection (Except.error "auth failed") none).2.1).1 = some ⟨false⟩ :=
  ⟨rfl, rfl⟩

/-- Claim C5 (amended): the connection manager holds one process-wide
lazily-established session: with the global unset a call performs the
login exchange and on success stores and returns the authenticated
handle; later calls return the stored handle without logging in again;
the call during which authentication fails returns null while the
global keeps the unauthenticated handle assigned before login, so
subsequent calls return that stale non-null handle; and import_hosts
treats a null connection as batch-cannot-proceed, never rendering
outcomes. -/
theorem connection_manager_behaviour (login : Except String Unit) (g : Option ZSession) :
    (g = none → login = Except.ok () →
      get_zabbix_connection login g = (some ⟨true⟩, some ⟨true⟩, [ApiCall.login])) ∧
    (∀ z, g = some z → get_zabbix_connection login g = (some z, some z, [])) ∧
    (∀ e, g = none → login = Except.error e →
      get_zabbix_connection login g = (none, some ⟨false⟩, [ApiCall.login]) ∧
      ∀ login2, (get_zabbix_connection login2 (some ⟨false⟩)).1 = some ⟨false⟩) ∧
    (∀ (σ : Type) (api : RemoteApi σ) (s : σ) (req : ImportRequest),
      (get_zabbix_connection login g).1 = none →
      ∃ msg, (import_hosts login g api s req).1 = ImportResult.rejected msg) := by
  refine ⟨?_, ?_, ?_, ?_⟩
  · intro hg hl
    rw [hg, hl]
    rfl
  · intro z hg
    rw [hg]
    rfl
  · intro e hg hl
    rw [hg, hl]
    exact ⟨rfl, fun login2 => rfl⟩
  · intro σ api s req hnull
    unfold import_hosts
    repeat' split
    all_goals (try exact ⟨_, rfl⟩)
    all_goals simp_all

theorem connection_manager_behaviour_witness :
    get_zabbix_connection (Except.ok ()) none = (some ⟨true⟩, some ⟨true⟩, [ApiCall.login]) :=
  (connection_manager_behaviour (Except.ok ()) none).1 rfl rfl

/-- Claim C6: an upload whose parsed table misses one of the required
columns nome or ip (the name and address columns of the spec) is
rejected immediately: the batch is not started, no row is processed,
no remote call is made and the connection global is untouched. -/
theorem missing_columns_reject {σ : Type} (login : Except String Unit)
    (g : Option ZSession) (api : RemoteApi σ) (s : σ) (req : ImportRequest)
    (f : CsvFile) (df : Table)
    (hf : req.csv_file = some f)
    (hn : f.filename ≠ "")
    (hcsv : pyEndsWith f.filename ".csv" = true)
    (hp : f.parsed = Except.ok df)
    (hcols : required_columns.all (fun c => df.columns.contains c) = false) :
    import_hosts login g api s req =
      (ImportResult.rejected "O CSV deve conter as colunas: nome, ip", g, s, []) := by
  unfold import_hosts
  simp [hf, hp, hn, hcsv, hcols]
  intro hmem
  rw [(by simpa using hmem : required_columns.all (fun c => df.columns.contains c) = true)]
    at hcols
  exact Bool.noConfusion hcols

/-- A two-row upload whose table lacks the ip column. -/
def reqNoIpColumn : ImportRequest :=
  { csv_file := some
      { filename := "hosts.csv",
        parsed := Except.ok { columns := ["nome"], rows := [] } },
    templates := ["101"],
    snmp_version := some "2",
    form := emptyForm }

theorem missing_columns_reject_witness :
    import_hosts (Except.ok ()) none apiHappy () reqNoIpColumn =
      (ImportResult.rejected "O CSV deve conter as colunas: nome, ip", none, (), []) :=
  missing_columns_reject (Except.ok ()) none apiHappy () reqNoIpColumn _ _
    rfl (by decide) (by decide) rfl (by decide)

/-- Claim C7: an import submission with zero templates selected is
rejected before any remote API call is made (the issued call list is
empty and the connection global is untouched) and no outcome records
are produced. -/
theorem zero_templates_reject {σ : Type} (login : Except String Unit)
    (g : Option ZSession) (api : RemoteApi σ) (s : σ) (req : ImportRequest)
    (ht : req.templates = []) :
    ∃ msg, import_hosts login g api s req = (ImportResult.rejected msg, g, s, []) := by
  unfold import_hosts
  repeat' split
  all_goals exact ⟨_, rfl⟩

/-- The two-row upload with no template selected. -/
def reqNoTemplates : ImportRequest :=
  { reqTwoRows with templates := [] }

theorem zero_templates_reject_witness :
    ∃ msg, import_hosts (Except.ok ()) none apiHappy () reqNoTemplates =
      (ImportResult.rejected msg, none, (), []) :=
  zero_templates_reject (Except.ok ()) none apiHappy () reqNoTemplates rfl

/-- The number of version-3 keys present in an SNMP details dict. -/
def v3FieldCount (d : SnmpDetails) : Nat :=
  [d.securityname.isSome, d.securitylevel.isSome, d.authprotocol.isSome,
   d.authpassphrase.isSome, d.privprotocol.isSome, d.privpassphrase.isSome,
   d.contextname.isSome].count true

/-- No version-3 key is present in the details dict. -/
def noV3Fields (d : SnmpDetails) : Prop :=
  d.securityname = none ∧ d.securitylevel = none ∧ d.authprotocol = none ∧
  d.authpassphrase = none ∧ d.privprotocol = none ∧ d.privpassphrase = none ∧
  d.contextname = none

/-- Every version-3 key is present in the details dict. -/
def allV3Fields (d : SnmpDetails) : Prop :=
  d.securityname.isSome = true ∧ d.securitylevel.isSome = true ∧
  d.authprotocol.isSome = true ∧ d.authpassphrase.isSome = true ∧
  d.privprotocol.isSome = true ∧ d.privpassphrase.isSome = true ∧
  d.contextname.isSome = true

/-- The int() conversion of the securitylevel form field succeeds;
always true when the field is absent, since the default 0 is already
an int. -/
def securitylevelParses (fd : FormData) : Prop :=
  match fd.snmp_securitylevel with
  | none => True
  | some sv => (pyInt sv).isSome = true

/-- Claim C3 counterexample: at a concrete version-3 input the built
descriptor carries seven version-3 fields, not six; the spec
enumerates security name, security level, auth and priv protocols and
passphrases, and context name, which are seven keys, yet counts six. -/
theorem snmp_v3_field_count_counterexample :
    (buildInterface "10.0.0.1" (some "3") emptyForm).map (fun i => v3FieldCount i.details) =
      Except.ok 7 ∧ (7 : Nat) ≠ 6 :=
  ⟨rfl, by decide⟩

/-- Claim C3 (amended): for every row, when the shared SNMP version is
2 the interface descriptor carries a community string and none of the
version-3 fields; when it is 3, and the securitylevel field parses as
an int so that a descriptor is built at all, it carries all seven
version-3 fields and no community string. -/
theorem snmp_details_by_version (ip : String) (ver : Option String) (fd : FormData)
    (hp : securitylevelParses fd) :
    (ver = some "2" → ∃ i, buildInterface ip ver fd = Except.ok i ∧
      i.details.community = some (fd.snmp_community.getD "public") ∧
      noV3Fields i.details ∧ v3FieldCount i.details = 0) ∧
    (ver = some "3" → ∃ i, buildInterface ip ver fd = Except.ok i ∧
      i.details.community = none ∧ allV3Fields i.details ∧ v3FieldCount i.details = 7) := by
  constructor
  · intro h2
    subst h2
    simp [buildInterface, noV3Fields, v3FieldCount]
  · intro h3
    subst h3
    have hlvl : ∃ lvl, levelResult fd = Except.ok lvl := by
      cases hsv : fd.snmp_securitylevel with
      | none => exact ⟨0, by unfold levelResult; rw [hsv]⟩
      | some sv =>
        unfold securitylevelParses at hp
        rw [hsv] at hp
        have hp2 : (pyInt sv).isSome = true := hp
        obtain ⟨n, hn⟩ := Option.isSome_iff_exists.mp hp2
        exact ⟨n, by unfold levelResult; rw [hsv]; simp [hn]⟩
    obtain ⟨lvl, hl⟩ := hlvl
    simp [buildInterface, hl, allV3Fields, v3FieldCount]

/-- A version-3 form with a security name and a parseable security
level. -/
def formV3 : FormData :=
  { emptyForm with snmp_securityname := some "v3user", snmp_securitylevel := some "1" }

theorem snmp_details_by_version_witness :
    (∃ i, buildInterface "10.0.0.1" (some "2") emptyForm = Except.ok i ∧
      i.details.community = some (emptyForm.snmp_community.getD "public") ∧
      noV3Fields i.details ∧ v3FieldCount i.details = 0) ∧
    (∃ i, buildInterface "10.0.0.2" (some "3") formV3 = Except.ok i ∧
      i.details.community = none ∧ allV3Fields i.details ∧ v3FieldCount i.details = 7) :=
  ⟨(snmp_details_by_version "10.0.0.1" (some "2") emptyForm trivial).1 rfl,
   (snmp_details_by_version "10.0.0.2" (some "3") formV3
      (show securitylevelParses formV3 from (by decide : (pyInt "1").isSome = true))).2 rfl⟩

/-- Claim C10: a row processed with an SNMP version value other than
the strings 2 and 3 (including an absent value) is not rejected for
its version: the interface descriptor carries only the version and
bulk keys (no community string, no version-3 field) and, the name
being free and group resolution returning, the create-host call is
issued with exactly that descriptor. -/
theorem unknown_snmp_version_still_creates {σ : Type} (api : RemoteApi σ) (s s1 : σ)
    (hostname ip : String) (tids : List String) (ver : Option String) (fd : FormData)
    (hv2 : ver ≠ some "2") (hv3 : ver ≠ some "3")
    (hget : api.hostGet s hostname = (Except.ok [], s1))
    (gid : Option String) (s2 : σ) (gt : List ApiCall)
    (hgrp : get_default_hostgroup api s1 = (Except.ok gid, s2, gt)) :
    ∃ i, buildInterface ip ver fd = Except.ok i ∧
      i.details.version = ver ∧ i.details.bulk = 0 ∧
      i.details.community = none ∧ noV3Fields i.details ∧
      toCreateCall (mkCreateParams hostname i gid tids) ∈
        (create_host_in_zabbix api s hostname ip tids ver fd).2.2 := by
  have hbi : buildInterface ip ver fd = Except.ok
      { type := 2, main := 1, useip := 1, ip := ip, dns := "", port := "161",
        details :=
          { version := ver, bulk := 0, community := none,
            securityname := none, securitylevel := none, authprotocol := none,
            authpassphrase := none, privprotocol := none, privpassphrase := none,
            contextname := none } } := by
    unfold buildInterface
    simp [hv2, hv3]
  refine ⟨_, hbi, rfl, rfl, rfl, ⟨rfl, rfl, rfl, rfl, rfl, rfl, rfl⟩, ?_⟩
  unfold create_host_in_zabbix
  rw [hget]
  dsimp only
  rw [hbi]
  dsimp only
  rw [hgrp]
  dsimp only
  rcases hc : api.hostCreate s2 (mkCreateParams hostname _ gid tids) with ⟨rc, s3⟩
  rcases rc with e | ids
  · simp
  · rcases ids with _ | ⟨hid, ids⟩ <;> simp

theorem unknown_snmp_version_still_creates_witness :
    ∃ i, buildInterface "10.0.0.3" none emptyForm = Except.ok i ∧
      i.details.version = none ∧ i.details.bulk = 0 ∧
      i.details.community = none ∧ noV3Fields i.details ∧
      toCreateCall (mkCreateParams "h9" i (some "7") ["101"]) ∈
        (create_host_in_zabbix apiHappy () "h9" "10.0.0.3" ["101"] none emptyForm).2.2 :=
  unknown_snmp_version_still_creates apiHappy () () "h9" "10.0.0.3" ["101"] none emptyForm
    (by decide) (by decide) rfl (some "7") ()
    [ApiCall.hostgroupGetFiltered "Imported Hosts"] rfl

/-- The remote calls of one group resolution take one of four shapes:
the filtered lookup alone, lookup then create, lookup then the
fallback query, or all three. -/
theorem group_trace_shapes {σ : Type} (api : RemoteApi σ) (s : σ) :
    (get_default_hostgroup api s).2.2 = [ApiCall.hostgroupGetFiltered "Imported Hosts"] ∨
    (get_default_hostgroup api s).2.2 =
      [ApiCall.hostgroupGetFiltered "Imported Hosts",
       ApiCall.hostgroupCreate "Imported Hosts"] ∨
    (get_default_hostgroup api s).2.2 =
      [ApiCall.hostgroupGetFiltered "Imported Hosts", ApiCall.hostgroupGetAll] ∨
    (get_default_hostgroup api s).2.2 =
      [ApiCall.hostgroupGetFiltered "Imported Hosts",
       ApiCall.hostgroupCreate "Imported Hosts", ApiCall.hostgroupGetAll] := by
  unfold get_default_hostgroup fallbackGroup
  repeat' split
  all_goals simp

/-- Within one row, no remote call is issued twice: the trace of
create_host_in_zabbix has no duplicate entry, and the lookup for the
row's own name appears exactly once. -/
theorem create_trace_calls_once {σ : Type} (api : RemoteApi σ) (s : σ)
    (hostname ip : String) (tids : List String) (ver : Option String) (fd : FormData) :
    ((create_host_in_zabbix api s hostname ip tids ver fd).2.2).Nodup ∧
    ((create_host_in_zabbix api s hostname ip tids ver fd).2.2).count
      (ApiCall.hostGet hostname) = 1 := by
  unfold create_host_in_zabbix
  rcases hg : api.hostGet s hostname with ⟨r1, s1⟩
  rcases r1 with e | hs
  · simp
  · rcases hs with _ | ⟨h0, hs⟩
    · dsimp only
      rcases hb : buildInterface ip ver fd with e | iface
      · simp
      · dsimp only
        rcases hgr : get_default_hostgroup api s1 with ⟨gr, s2, gt⟩
        have hshape := group_trace_shapes api s1
        rw [hgr] at hshape
        simp only at hshape
        rcases gr with e | gid
        · dsimp only
          rcases hshape with h | h | h | h <;>
            (subst h; simp [List.count_cons])
        · dsimp only
          rcases hc : api.hostCreate s2 (mkCreateParams hostname iface gid tids) with ⟨rc, s3⟩
          rcases rc with e | ids
          · dsimp only
            rcases hshape with h | h | h | h <;>
              (subst h; simp [toCreateCall, List.count_cons])
          · rcases ids with _ | ⟨hid, ids⟩ <;>
              (dsimp only;
               rcases hshape with h | h | h | h <;>
                 (subst h; simp [toCreateCall, List.count_cons]))
    · simp

/-- Claim C8: any failure during a row (lookup exception, duplicate
name, create exception) is captured as that row's Error outcome; the
loop still emits one outcome per row, so the batch continues; and no
remote call is retried — within a row the trace has no duplicate and
the lookup for the row's name appears exactly once. -/
theorem row_failures_isolated_no_retry {σ : Type} (api : RemoteApi σ) (s : σ)
    (hostname ip : String) (tids : List String) (ver : Option String) (fd : FormData)
    (rows : List Row) :
    (∀ e s1, api.hostGet s hostname = (Except.error e, s1) →
      create_host_in_zabbix api s hostname ip tids ver fd =
        ({ nome := hostname, ip := ip, status := Status.error, mensagem := e },
          s1, [ApiCall.hostGet hostname])) ∧
    (∀ h hs s1, api.hostGet s hostname = (Except.ok (h :: hs), s1) →
      (create_host_in_zabbix api s hostname ip tids ver fd).1.status = Status.error) ∧
    (∀ s1 iface gid s2 gt e s3,
      api.hostGet s hostname = (Except.ok [], s1) →
      buildInterface ip ver fd = Except.ok iface →
      get_default_hostgroup api s1 = (Except.ok gid, s2, gt) →
      api.hostCreate s2 (mkCreateParams hostname iface gid tids) = (Except.error e, s3) →
      (create_host_in_zabbix api s hostname ip tids ver fd).1 =
        { nome := hostname, ip := ip, status := Status.error, mensagem := e }) ∧
    ((processRows api s rows tids ver fd).1.length = rows.length) ∧
    (((create_host_in_zabbix api s hostname ip tids ver fd).2.2).Nodup ∧
      ((create_host_in_zabbix api s hostname ip tids ver fd).2.2).count
        (ApiCall.hostGet hostname) = 1) := by
  refine ⟨?_, ?_, ?_,
    processRows_length api tids ver fd rows s,
    create_trace_calls_once api s hostname ip tids ver fd⟩
  · intro e s1 h
    unfold create_host_in_zabbix
    rw [h]
  · intro h0 hs s1 h
    unfold create_host_in_zabbix
    rw [h]
  · intro s1 iface gid s2 gt e s3 h1 h2 h3 h4
    unfold create_host_in_zabbix
    rw [h1]
    dsimp only
    rw [h2]
    dsimp only
    rw [h3]
    dsimp only
    rw [h4]

/-- A remote environment whose host lookup raises a network fault. -/
def apiDown : RemoteApi Unit :=
  { hostGet := fun s _ => (Except.error "ConnectionError: network fault", s),
    hostCreate := fun s _ => (Except.error "ConnectionError: network fault", s),
    hostgroupGetFiltered := fun s _ => (Except.error "ConnectionError: network fault", s),
    hostgroupCreate := fun s _ => (Except.error "ConnectionError: network fault", s),
    hostgroupGetAll := fun s => (Except.error "ConnectionError: network fault", s) }

theorem row_failures_isolated_no_retry_witness :
    create_host_in_zabbix apiDown () "h1" "10.0.0.1" ["101"] (some "2") emptyForm =
      ({ nome := "h1", ip := "10.0.0.1", status := Status.error,
         mensagem := "ConnectionError: network fault" }, (), [ApiCall.hostGet "h1"]) ∧
    (processRows apiDown () [⟨"h1", "10.0.0.1"⟩, ⟨"h2", "10.0.0.2"⟩]
      ["101"] (some "2") emptyForm).1.length = 2 :=
  ⟨(row_failures_isolated_no_retry apiDown () "h1" "10.0.0.1" ["101"] (some "2")
      emptyForm []).1 "ConnectionError: network fault" () rfl,
   (row_failures_isolated_no_retry apiDown () "h1" "10.0.0.1" ["101"] (some "2")
      emptyForm [⟨"h1", "10.0.0.1"⟩, ⟨"h2", "10.0.0.2"⟩]).2.2.2.1⟩

end ZabbixDiscover
